import Mathlib

/-!
Verification of the webgpu-go Game-of-Life example.

The development shallowly embeds the program's two halves:
  * the WGSL compute shader (`cellIndex`, `cellActive`, the neighbor sum and
    the switch on `activeNeighbors` in the compute entry point), with u32
    arithmetic modelled as `Nat` reduced modulo 2^32 at every operation;
  * the Go host (`main.go`): bind-group construction, `Render`'s bind-group
    selection and step increment, `Resize`, the cell-state seeding loop,
    `InitState`'s failure paths and `Destroy`.

Grids are modelled as functions `Nat → Nat` from flat storage index to cell
state, matching the `array<u32>` storage buffers.
-/

namespace WebgpuGo

/-- `const GRID_SIZE = 128` (main.go). The uniform `grid` buffer holds
`vec2<f32>(128, 128)`, so `u32(grid.x) = u32(grid.y) = 128`. -/
def GRID_SIZE : Nat := 128

/-- 2^32, the modulus of WGSL `u32` arithmetic. -/
def U32MOD : Nat := 4294967296

/-- WGSL `u32` addition: wraps modulo 2^32. -/
def uadd (a b : Nat) : Nat := (a + b) % U32MOD

/-- WGSL `u32` subtraction: wraps modulo 2^32 (underflow wraps to the top). -/
def usub (a b : Nat) : Nat := (a + (U32MOD - b % U32MOD)) % U32MOD

/-- `fn cellIndex(cell: vec2<u32>) -> u32 \x7b return (cell.y % u32(grid.y)) *
u32(grid.x) + (cell.x % u32(grid.x)); \x7d` with `grid = (128, 128)`.
The result is always below `GRID_SIZE * GRID_SIZE < 2^32`, so the trailing
u32 wrap of the addition is a no-op and is omitted. -/
def cellIndex (x y : Nat) : Nat := (y % GRID_SIZE) * GRID_SIZE + (x % GRID_SIZE)

/-- `fn cellActive(x: u32, y: u32) -> u32 \x7b return cellStateIn[cellIndex(vec2(x, y))]; \x7d`.
`g` is the `cellStateIn` storage buffer. -/
def cellActive (g : Nat → Nat) (x y : Nat) : Nat := g (cellIndex x y)

/-- The `activeNeighbors` expression of the compute entry point, transcribed
with its parenthesization exactly as written: the fourth `+`-operand is
`cellActive(cell.x, cell.y-u32(1) + cellActive(cell.x-u32(1), cell.y-u32(1)) +
cellActive(cell.x-u32(1), cell.y))` — the parenthesis that was meant to close
after `cell.y-u32(1)` closes only after two further `cellActive` calls, so the
whole sum has six top-level terms, not eight. u32 additions wrap. -/
def activeNeighbors (g : Nat → Nat) (x y : Nat) : Nat :=
  uadd (uadd (uadd (uadd (uadd
    (cellActive g (uadd x 1) (uadd y 1))
    (cellActive g (uadd x 1) y))
    (cellActive g (uadd x 1) (usub y 1)))
    (cellActive g x
      (uadd (uadd (usub y 1)
        (cellActive g (usub x 1) (usub y 1)))
        (cellActive g (usub x 1) y))))
    (cellActive g (usub x 1) (uadd y 1)))
    (cellActive g x (uadd y 1))

/-- The switch of the compute entry point: the value stored to
`cellStateOut[cellIndex(cell.xy)]` by the invocation with global id `(x, y)`.
`case 2u` keeps `cellStateIn[i]`, `case 3u` writes 1, default writes 0. -/
def stepCell (g : Nat → Nat) (x y : Nat) : Nat :=
  match activeNeighbors g x y with
  | 2 => g (cellIndex x y)
  | 3 => 1
  | _ => 0

/-- The flat storage index the invocation with global id `(x, y)` writes:
`let i = cellIndex(cell.xy)`. -/
def writeIndex (x y : Nat) : Nat := cellIndex x y

/-- The `cellStateIn` indices read while evaluating `activeNeighbors`, in
evaluation order (the two nested `cellActive` calls of the fourth term are
read before the enclosing one). -/
def neighborReadIndices (g : Nat → Nat) (x y : Nat) : List Nat :=
  [cellIndex (uadd x 1) (uadd y 1),
   cellIndex (uadd x 1) y,
   cellIndex (uadd x 1) (usub y 1),
   cellIndex (usub x 1) (usub y 1),
   cellIndex (usub x 1) y,
   cellIndex x
     (uadd (uadd (usub y 1)
       (cellActive g (usub x 1) (usub y 1)))
       (cellActive g (usub x 1) y)),
   cellIndex (usub x 1) (uadd y 1),
   cellIndex x (uadd y 1)]

/-- Specification-side definition (from the spec's words, for comparison with
the shader): the number of the 8 torus-wrapped neighbors of cell `(x, y)`
that are alive in the read grid; `+127 ≡ -1 (mod 128)` realizes the wrap. -/
def specNeighborCount (g : Nat → Nat) (x y : Nat) : Nat :=
  g (cellIndex (x + 1) (y + 1)) + g (cellIndex (x + 1) y) +
  g (cellIndex (x + 1) (y + 127)) + g (cellIndex x (y + 127)) +
  g (cellIndex (x + 127) (y + 127)) + g (cellIndex (x + 127) y) +
  g (cellIndex (x + 127) (y + 1)) + g (cellIndex x (y + 1))

/-- Specification-side definition (from the spec's words): exactly 2 alive
neighbors keeps the cell's state, exactly 3 makes it alive, otherwise dead. -/
def specStep (g : Nat → Nat) (x y : Nat) : Nat :=
  if specNeighborCount g x y = 2 then g (cellIndex x y)
  else if specNeighborCount g x y = 3 then 1
  else 0

/-- Concrete read grid for C1: cells (1,1), (1,2), (1,3) alive, all others
dead (flat indices 129, 257, 385; `cellIndex x y = y*128 + x`). -/
def gC1 : Nat → Nat := fun i => if i = 129 ∨ i = 257 ∨ i = 385 then 1 else 0

/-- Concrete read grid for C7: only cell (127,127) alive (flat index 16383). -/
def gC7 : Nat → Nat := fun i => if i = 16383 then 1 else 0

/-! ## Host model: bind groups and the Render tick (main.go) -/

/-- A bind group as built by `State.bindGroup(label, l, x, y, w)`:
binding 0 is the grid uniform, binding 1 the read-only storage buffer
(`cellStateIn`), binding 2 the read-write storage buffer (`cellStateOut`).
Buffers are identified by their index in `cellStateStorage`. -/
structure BindGroup where
  uniformBuf : Nat
  readBuf : Nat
  writeBuf : Nat
deriving DecidableEq

/-- `s.gridBindGroups` from InitState: "cell renderer A" binds
`cellStateStorage[0]` at binding 1 and `cellStateStorage[1]` at binding 2;
"cell renderer B" binds them the other way round. -/
def gridBindGroups : List BindGroup := [⟨0, 0, 1⟩, ⟨0, 1, 0⟩]

/-- Default bind group for out-of-range `List.getD` lookups (never hit:
indices are always `_ % 2`). -/
def dfltBG : BindGroup := ⟨0, 0, 0⟩

/-- Read/write storage-buffer roles at step `n`: the compute pass binds
`s.gridBindGroups[s.steps % 2]`, reading its binding-1 buffer and writing its
binding-2 buffer. -/
def rolesFor (n : Nat) : Nat × Nat :=
  ((gridBindGroups.getD (n % 2) dfltBG).readBuf,
   (gridBindGroups.getD (n % 2) dfltBG).writeBuf)

/-- The mutable host state the Render tick touches: the step counter and the
contents of the two cell-state storage buffers. -/
structure SimState where
  steps : Nat
  buf0 : Nat → Nat
  buf1 : Nat → Nat

/-- Contents of storage buffer `k` (`cellStateStorage[k]`). -/
def getBuf (s : SimState) (k : Nat) : Nat → Nat :=
  if k = 0 then s.buf0 else s.buf1

/-- Overwrite storage buffer `k` with grid `g`. -/
def setBuf (s : SimState) (k : Nat) (g : Nat → Nat) : SimState :=
  if k = 0 then { s with buf0 := g } else { s with buf1 := g }

/-- The grid produced by the compute dispatch from read grid `g`: index `i`
receives the value written by the invocations reducing to cell
`(i % 128, i / 128)` (they all agree; see the dispatch-consistency theorem). -/
def updateGrid (g : Nat → Nat) : Nat → Nat :=
  fun i => stepCell g (i % GRID_SIZE) (i / GRID_SIZE)

/-- One successful `Render` tick from main.go: the compute pass binds
`gridBindGroups[s.steps % 2]`, reading its binding-1 buffer and writing the
new generation into its binding-2 buffer; then `s.steps += 1`; then the
render pass binds `gridBindGroups[s.steps % 2]` (with the incremented
counter) and draws from its binding-1 buffer. Returns the new state and the
storage-buffer index the render pass reads. -/
def renderTick (s : SimState) : SimState × Nat :=
  let bgC := gridBindGroups.getD (s.steps % 2) dfltBG
  let newGrid := updateGrid (getBuf s bgC.readBuf)
  let s1 := setBuf s bgC.writeBuf newGrid
  let s2 : SimState := { s1 with steps := s1.steps + 1 }
  let bgR := gridBindGroups.getD (s2.steps % 2) dfltBG
  (s2, bgR.readBuf)

/-! ## Host model: render-error handling in the main loop (main.go) -/

/-- A Go error value created by `errors.New`: `id` is the allocation
identity, `msg` the message. Two `errorString` values are the same error only
if they are the same allocation. -/
structure GoErr where
  id : Nat
  msg : String
deriving DecidableEq

/-- `errors.Is(e, t)` for plain `errors.New` values: `errorString` has no
`Unwrap` or `Is` method, so the comparison is pointer identity, modelled by
allocation-id equality. -/
def errsIs (e t : GoErr) : Bool := e.id == t.id

/-- What the main loop does with a non-nil Render error. -/
inductive LoopAction
  | keepRunning
  | panicked
deriving DecidableEq

/-- The `switch` in the main loop, transcribed: each case's target is a fresh
`errors.New(...)` allocation made at comparison time. `next` is the next
unused allocation id, so every pre-existing error (the Render error `e`
included) has `id < next`. The three empty cases continue the loop; the
default case panics. -/
def handleRenderError (e : GoErr) (next : Nat) : LoopAction :=
  if errsIs e ⟨next, "Surface timed out"⟩ then .keepRunning
  else if errsIs e ⟨next + 1, "Surface is outdated"⟩ then .keepRunning
  else if errsIs e ⟨next + 2, "Surface was lost"⟩ then .keepRunning
  else .panicked

/-- `Render` including the `GetCurrentTextureView` failure path: when the
surface acquisition fails, `Render` returns the error before the compute
pass is encoded and before `s.steps += 1`, leaving the state untouched. -/
def renderStep (s : SimState) (surfaceErr : Option GoErr) : SimState × Option GoErr :=
  match surfaceErr with
  | some e => (s, some e)
  | none => ((renderTick s).1, none)

/-! ## Host model: Resize (main.go) -/

/-- The host state `Resize` can observe or touch. `swapChainGen` counts
`CreateSwapChain` calls (backend presentation-resource reallocations). -/
structure WinState where
  configWidth : Nat
  configHeight : Nat
  swapChainGen : Nat
  cellStates0 : Nat → Nat
  cellStates1 : Nat → Nat
  steps : Nat

/-- `func (s *State) Resize(width, height int)`: only when both dimensions
are positive does it store `uint32(width)`/`uint32(height)` into the config
and recreate the swap chain; otherwise it does nothing. It never touches the
cell grids or the step counter. -/
def resize (s : WinState) (width height : Int) : WinState :=
  if 0 < width ∧ 0 < height then
    { s with
      configWidth := width.toNat % U32MOD
      configHeight := height.toNat % U32MOD
      swapChainGen := s.swapChainGen + 1 }
  else s

/-! ## Host model: cell-state seeding (InitState, main.go) -/

/-- The seeding loop of InitState: both `cellStates` arrays start zeroed; for
each index `i` one draw `r i` of `rand.Float32()` is compared against 0.7 and
on `r > 0.7` both arrays' entries are set to 1. The random stream is
modelled as rationals (each `rand.Float32()` value lies in [0,1)). -/
def seedCellStates (r : Nat → ℚ) : (Nat → Nat) × (Nat → Nat) :=
  (fun i => if 7/10 < r i then 1 else 0,
   fun i => if 7/10 < r i then 1 else 0)

/-! ## Host model: Destroy (main.go) -/

/-- The releasable GPU-resident resources tracked in the `State` struct. -/
inductive Res
  | inst
  | surface
  | adapter
  | device
  | queue
  | swapChain
  | vertexBuffer
  | gridBuffer
  | pipeline
  | simulationPipeline
  | bindGroupA
  | bindGroupB
deriving DecidableEq

/-- The `State` fields `Destroy` inspects: `true`/`some` means non-nil.
`gridBindGroups` is the slice of bind-group pointers. -/
structure DState where
  swapChain : Bool
  inst : Bool
  config : Bool
  queue : Bool
  device : Bool
  surface : Bool
  adapter : Bool
  vertexBuffer : Bool
  gridBuffer : Bool
  pipeline : Bool
  simulationPipeline : Bool
  gridBindGroups : List (Option Res)
deriving DecidableEq

/-- `func (s *State) Destroy()`, transcribed in source order: each nil-guarded
field is released once and set to nil; the final loop releases every non-nil
entry of the `gridBindGroups` slice but — iterating over a copy of each
element — cannot nil the slice entries, so the slice is left unchanged.
Returns the state after the call and the list of `Release` calls issued. -/
def destroy (s : DState) : DState × List Res :=
  ({ swapChain := false, inst := false, config := false, queue := false,
     device := false, surface := false, adapter := false,
     vertexBuffer := false, gridBuffer := false, pipeline := false,
     simulationPipeline := false,
     gridBindGroups := s.gridBindGroups },
   (if s.swapChain then [Res.swapChain] else []) ++
   (if s.inst then [Res.inst] else []) ++
   (if s.queue then [Res.queue] else []) ++
   (if s.device then [Res.device] else []) ++
   (if s.surface then [Res.surface] else []) ++
   (if s.adapter then [Res.adapter] else []) ++
   (if s.vertexBuffer then [Res.vertexBuffer] else []) ++
   (if s.gridBuffer then [Res.gridBuffer] else []) ++
   (if s.pipeline then [Res.pipeline] else []) ++
   (if s.simulationPipeline then [Res.simulationPipeline] else []) ++
   s.gridBindGroups.filterMap id)

/-- The `State` after a successful `InitState`: every field non-nil and both
bind groups in the slice. -/
def postInitState : DState :=
  { swapChain := true, inst := true, config := true, queue := true,
    device := true, surface := true, adapter := true, vertexBuffer := true,
    gridBuffer := true, pipeline := true, simulationPipeline := true,
    gridBindGroups := [some Res.bindGroupA, some Res.bindGroupB] }

/-! ## Host model: InitState failure paths (main.go) -/

/-- The failable acquisition steps of `InitState`, in program order.
`CreateInstance` and `CreateSurface` (setSurface), `GetQueue` and the
cell-state seeding have no failure mode and are not listed. -/
inductive InitStep
  | requestAdapter
  | requestDevice
  | createTheSwapChain
  | createVertexBuffer
  | writeVertexBuffer
  | createGridBuffer
  | writeGridBuffer
  | createDrawShader
  | createComputeShader
  | createBindGroupLayout
  | createPipelineLayout
  | createRenderPipeline
  | createStorageBuffer0
  | createStorageBuffer1
  | createBindGroupA
  | createBindGroupB
  | createComputePipeline
deriving DecidableEq

/-- How a call to `InitState` (and with it the caller `main`) ends. -/
inductive InitOutcome
  | ok
  | returnedErr
  | fatalExit
  | panicked
deriving DecidableEq

/-- The `DState` holding exactly the State-tracked resources acquired so far
(locals — shaders, layouts, the storage-buffer slice — live outside `State`). -/
def stateWith (acq : List Res) (bgs : List (Option Res)) : DState :=
  { swapChain := acq.contains Res.swapChain
    inst := acq.contains Res.inst
    config := acq.contains Res.swapChain
    queue := acq.contains Res.queue
    device := acq.contains Res.device
    surface := acq.contains Res.surface
    adapter := acq.contains Res.adapter
    vertexBuffer := acq.contains Res.vertexBuffer
    gridBuffer := acq.contains Res.gridBuffer
    pipeline := acq.contains Res.pipeline
    simulationPipeline := acq.contains Res.simulationPipeline
    gridBindGroups := bgs }

/-- `InitState` with an injected failure at step `fail` (`none` = success),
transcribed from main.go. Returns the outcome, the State-tracked resources
acquired before the failure, and the `Release` calls issued on the way out:
* `setDevice`, `setSwapChain`, `initVertexBuffer`, `initGridBuffer` and
  `createShader` react to errors with `log.Fatalln`, which calls `os.Exit(1)`
  — no return to the caller and no deferred teardown, so nothing is released;
* the bind-group-layout, pipeline-layout, render-pipeline and
  compute-pipeline steps return the error, so the deferred handler sees
  `err != nil` and runs `s.Destroy()`;
* `storageBuffer` and `bindGroup` call `panic(err)`; the deferred handler
  runs with `err == nil` and does not call `Destroy`. -/
def initRun (fail : Option InitStep) : InitOutcome × List Res × List Res :=
  let acq0 : List Res := [.inst, .surface]
  if fail = some .requestAdapter then (.fatalExit, acq0, [])
  else
  let acq1 := acq0 ++ [.adapter]
  if fail = some .requestDevice then (.fatalExit, acq1, [])
  else
  let acq2 := acq1 ++ [.device, .queue]
  if fail = some .createTheSwapChain then (.fatalExit, acq2, [])
  else
  let acq3 := acq2 ++ [.swapChain]
  if fail = some .createVertexBuffer then (.fatalExit, acq3, [])
  else
  let acq4 := acq3 ++ [.vertexBuffer]
  if fail = some .writeVertexBuffer then (.fatalExit, acq4, [])
  else if fail = some .createGridBuffer then (.fatalExit, acq4, [])
  else
  let acq5 := acq4 ++ [.gridBuffer]
  if fail = some .writeGridBuffer then (.fatalExit, acq5, [])
  else if fail = some .createDrawShader then (.fatalExit, acq5, [])
  else if fail = some .createComputeShader then (.fatalExit, acq5, [])
  else if fail = some .createBindGroupLayout then
    (.returnedErr, acq5, (destroy (stateWith acq5 [])).2)
  else if fail = some .createPipelineLayout then
    (.returnedErr, acq5, (destroy (stateWith acq5 [])).2)
  else if fail = some .createRenderPipeline then
    (.returnedErr, acq5, (destroy (stateWith acq5 [])).2)
  else
  let acq6 := acq5 ++ [.pipeline]
  if fail = some .createStorageBuffer0 then (.panicked, acq6, [])
  else if fail = some .createStorageBuffer1 then (.panicked, acq6, [])
  else if fail = some .createBindGroupA then (.panicked, acq6, [])
  else if fail = some .createBindGroupB then (.panicked, acq6, [])
  else
  let acq7 := acq6 ++ [.bindGroupA, .bindGroupB]
  if fail = some .createComputePipeline then
    (.returnedErr, acq7,
     (destroy (stateWith acq7 [some .bindGroupA, some .bindGroupB])).2)
  else (.ok, acq7 ++ [.simulationPipeline], [])

/-- Whether `main` reaches the frame loop for a given `InitState` outcome:
`main` panics on a returned error, `log.Fatalln` has already exited the
process, and a panic out of `InitState` propagates through `main`. -/
def mainEntersLoop : InitOutcome → Bool
  | .ok => true
  | _ => false

/-! ## Supporting lemmas -/

lemma uadd_mod128 (a b : Nat) : uadd a b % GRID_SIZE = (a + b) % GRID_SIZE := by
  simp only [uadd, U32MOD, GRID_SIZE]
  omega

lemma usub_one_mod128 (a : Nat) : usub a 1 % GRID_SIZE = (a + 127) % GRID_SIZE := by
  simp only [usub, U32MOD, GRID_SIZE]
  omega

/-- The value an invocation computes depends on its x-coordinate only through
`x % GRID_SIZE`: every read index in `activeNeighbors` reduces the
(wrapped) coordinates modulo the grid dimension. -/
lemma activeNeighbors_congr (g : Nat → Nat) (x x' y : Nat)
    (h : x % GRID_SIZE = x' % GRID_SIZE) :
    activeNeighbors g x y = activeNeighbors g x' y := by
  have e1 : (x + 1) % U32MOD % GRID_SIZE = (x' + 1) % U32MOD % GRID_SIZE := by
    simp only [U32MOD, GRID_SIZE] at *
    omega
  have e2 : (x + (U32MOD - 1 % U32MOD)) % U32MOD % GRID_SIZE
      = (x' + (U32MOD - 1 % U32MOD)) % U32MOD % GRID_SIZE := by
    simp only [U32MOD, GRID_SIZE] at *
    omega
  unfold activeNeighbors cellActive cellIndex uadd usub
  rw [e1, e2, h]

lemma stepCell_mod_congr (g : Nat → Nat) (x x' y : Nat)
    (h : x % GRID_SIZE = x' % GRID_SIZE) :
    stepCell g x y = stepCell g x' y := by
  unfold stepCell
  rw [activeNeighbors_congr g x x' y h]
  rw [show cellIndex x y = cellIndex x' y from by unfold cellIndex; rw [h]]

/-! ## Claim theorems -/

/-- C1: the claim says one update step gives every cell the count of its 8
torus-wrapped live neighbors and applies keep-on-2 / alive-on-3 / else-dead.
The shader's neighbor sum has a misplaced parenthesis (its fourth operand is
`cellActive(cell.x, cell.y-1 + cellActive(cell.x-1, cell.y-1) +
cellActive(cell.x-1, cell.y))`), so on the grid with exactly (1,1), (1,2),
(1,3) alive, cell (2,2) has 3 live neighbors and must become alive (1), but
the compute step writes 0. -/
theorem compute_step_deviates_from_life_rule :
    specNeighborCount gC1 2 2 = 3 ∧ specStep gC1 2 2 = 1 ∧
    stepCell gC1 2 2 = 0 := by
  decide

/-- C2: the claim says a transient present failure (surface timed out /
outdated / lost) is logged and skipped, with the step counter still
advancing. In the code, each `switch` case compares the Render error against
a freshly allocated `errors.New(...)` value with `errors.Is`, which tests
pointer identity for `errorString`; a fresh allocation never equals the
pre-existing error, so every Render error falls through to `panic`.
Moreover `Render` returns on a surface-acquisition error before
`s.steps += 1`, so the counter does not advance. -/
theorem transient_present_error_panics_and_skips_step
    (e : GoErr) (next : Nat) (h : e.id < next)
    (hm : e.msg = "Surface timed out" ∨ e.msg = "Surface is outdated" ∨
          e.msg = "Surface was lost") :
    handleRenderError e next = .panicked ∧
    ∀ s : SimState, (renderStep s (some e)).1.steps = s.steps ∧
      (renderStep s (some e)).1 = s := by
  clear hm
  constructor
  · have h1 : (e.id == next) = false := by simp; omega
    have h2 : (e.id == next + 1) = false := by simp; omega
    have h3 : (e.id == next + 2) = false := by simp; omega
    simp [handleRenderError, errsIs, h1, h2, h3]
  · intro s
    exact ⟨rfl, rfl⟩

/-- Witness for C2: the concrete "Surface timed out" error with allocation
id 0, compared against fresh allocations starting at id 1, panics. -/
theorem transient_present_error_panics_and_skips_step_witness :
    handleRenderError ⟨0, "Surface timed out"⟩ 1 = .panicked :=
  (transient_present_error_panics_and_skips_step ⟨0, "Surface timed out"⟩ 1
    (by decide) (Or.inl rfl)).1

/-- C3 counterexample: when `RequestAdapter` fails, `InitState` does not
return the error — `setDevice` calls `log.Fatalln`, which exits the process,
skipping the deferred teardown — so the already-acquired instance and
surface are not released. -/
theorem initState_adapter_failure_exits_without_return_or_release :
    (initRun (some .requestAdapter)).1 = .fatalExit ∧
    (initRun (some .requestAdapter)).1 ≠ .returnedErr ∧
    Res.inst ∈ (initRun (some .requestAdapter)).2.1 ∧
    Res.surface ∈ (initRun (some .requestAdapter)).2.1 ∧
    (initRun (some .requestAdapter)).2.2 = [] := by
  decide

/-- C3 amended: only failures of bind-group-layout, pipeline-layout,
render-pipeline and compute-pipeline creation return the error to the
caller; on those paths the deferred handler runs `Destroy`, releasing
exactly once (no duplicates) precisely the State-tracked resources acquired
so far, skipping nil handles. Failures in adapter, device, swap-chain,
buffer or shader acquisition exit the process via `log.Fatalln` releasing
nothing; storage-buffer and bind-group creation failures panic without
running `Destroy`. In every failure mode the frame loop is not entered. -/
theorem initState_failure_paths_classified (st : InitStep) :
    ((initRun (some st)).1 = .returnedErr ↔
      (st = .createBindGroupLayout ∨ st = .createPipelineLayout ∨
       st = .createRenderPipeline ∨ st = .createComputePipeline)) ∧
    ((initRun (some st)).1 = .returnedErr →
      ((initRun (some st)).2.2.Perm (initRun (some st)).2.1 ∧
       (initRun (some st)).2.2.Nodup)) ∧
    ((initRun (some st)).1 = .fatalExit → (initRun (some st)).2.2 = []) ∧
    ((initRun (some st)).1 = .panicked → (initRun (some st)).2.2 = []) ∧
    mainEntersLoop (initRun (some st)).1 = false := by
  cases st <;> decide

/-- Witness for C3 amended: at a bind-group-layout creation failure the
released resources are a duplicate-free permutation of the acquired ones. -/
theorem initState_failure_paths_classified_witness :
    (initRun (some InitStep.createBindGroupLayout)).2.2.Perm
      (initRun (some InitStep.createBindGroupLayout)).2.1 ∧
    (initRun (some InitStep.createBindGroupLayout)).2.2.Nodup :=
  (initState_failure_paths_classified InitStep.createBindGroupLayout).2.1
    (by decide)

/-- C4: the claim says two successive `Destroy` calls release each resource,
the bind groups included, at most once in total. The nil-guarded fields are
released once, but the `gridBindGroups` loop ranges over copies of the slice
entries and cannot nil them, so the second call releases both bind groups
again: starting from the post-init state, each bind group is released twice
across the two calls, while e.g. the device is released once. -/
theorem destroy_twice_releases_bind_groups_twice :
    ((destroy postInitState).2 ++ (destroy (destroy postInitState).1).2).count
      Res.bindGroupA = 2 ∧
    ((destroy postInitState).2 ++ (destroy (destroy postInitState).1).2).count
      Res.bindGroupB = 2 ∧
    ((destroy postInitState).2 ++ (destroy (destroy postInitState).1).2).count
      Res.device = 1 := by
  decide

/-- C5: in every frame the render pass reads the buffer the compute pass of
the same frame just wrote: the render pass's bind group (selected with the
already-incremented step counter) has as its binding-1 read-only storage
buffer the compute pass's binding-2 write target, and the presented contents
are the freshly computed generation. -/
theorem render_reads_same_frame_write_target (s : SimState) :
    (renderTick s).2 = (rolesFor s.steps).2 ∧
    getBuf (renderTick s).1 (renderTick s).2
      = updateGrid (getBuf s (rolesFor s.steps).1) := by
  rcases Nat.mod_two_eq_zero_or_one s.steps with h | h <;>
  · have h1 : (s.steps + 1) % 2 = 1 - s.steps % 2 := by omega
    simp [renderTick, rolesFor, gridBindGroups, List.getD, h, h1, dfltBG,
      getBuf, setBuf]

/-- Witness for C5 at the step-0 state with zeroed buffers. -/
theorem render_reads_same_frame_write_target_witness :
    (renderTick ⟨0, fun _ => 0, fun _ => 0⟩).2 = (rolesFor 0).2 :=
  (render_reads_same_frame_write_target ⟨0, fun _ => 0, fun _ => 0⟩).1

/-- C6: the role assignment of step N is `(N mod 2, (N+1) mod 2)`;
consecutive steps get swapped, disjoint roles, and the read index never
equals the write index. -/
theorem rolesFor_swapped_disjoint (n : Nat) :
    rolesFor n = (n % 2, (n + 1) % 2) ∧
    (rolesFor (n + 1)).1 = (rolesFor n).2 ∧
    (rolesFor (n + 1)).2 = (rolesFor n).1 ∧
    (rolesFor n).1 ≠ (rolesFor n).2 := by
  rcases Nat.mod_two_eq_zero_or_one n with h | h <;>
  · have h1 : (n + 1) % 2 = 1 - n % 2 := by omega
    have h2 : (n + 2) % 2 = n % 2 := by omega
    simp [rolesFor, gridBindGroups, List.getD, h, h1, h2, dfltBG]

/-- Witness for C6 at step 0. -/
theorem rolesFor_swapped_disjoint_witness :
    rolesFor 0 = (0 % 2, (0 + 1) % 2) :=
  (rolesFor_swapped_disjoint 0).1

/-- C7: the claim says cell (0,0)'s addressed neighbor set always includes
(N-1,N-1), (N-1,0) and (0,N-1). The first two are always read (inside the
fourth operand's argument), but because of the misplaced parenthesis the
read that was meant to hit (0,N-1) has y-coordinate
`0 - 1 + cellStateIn[(N-1,N-1)] + cellStateIn[(N-1,0)]`: on the grid with
(127,127) alive, the u32 underflow of `0 - 1` is cancelled by the +1 and the
read lands on (0,0) instead, so (0,N-1) is never addressed. -/
theorem wrapped_corner_neighbor_not_always_read :
    cellIndex 127 127 ∈ neighborReadIndices gC7 0 0 ∧
    cellIndex 127 0 ∈ neighborReadIndices gC7 0 0 ∧
    cellIndex 0 127 ∉ neighborReadIndices gC7 0 0 := by
  decide

/-- C8: a resize notification with a non-positive width or height leaves the
state entirely unchanged (stored presentation target kept, no swap-chain
reallocation), and every resize notification leaves the cell grids and the
step counter unchanged. -/
theorem resize_nonpositive_noop_and_preserves_simulation
    (s : WinState) (w h : Int) :
    (w ≤ 0 ∨ h ≤ 0 → resize s w h = s) ∧
    (resize s w h).cellStates0 = s.cellStates0 ∧
    (resize s w h).cellStates1 = s.cellStates1 ∧
    (resize s w h).steps = s.steps := by
  refine ⟨fun hyp => ?_, ?_, ?_, ?_⟩
  · rw [resize, if_neg]
    rcases hyp with h1 | h1 <;> omega
  all_goals unfold resize
  all_goals split <;> rfl

/-- Witness for C8: resizing a concrete state to width 0 is a no-op. -/
theorem resize_nonpositive_noop_witness :
    resize ⟨640, 480, 0, fun _ => 0, fun _ => 0, 0⟩ 0 5
      = ⟨640, 480, 0, fun _ => 0, fun _ => 0, 0⟩ :=
  (resize_nonpositive_noop_and_preserves_simulation
    ⟨640, 480, 0, fun _ => 0, fun _ => 0, 0⟩ 0 5).1 (Or.inl (by decide))

/-- C9: seeding mirrors the two snapshots element-for-element, every entry
is 0 or 1, and a cell is seeded alive exactly when its `rand.Float32()` draw
exceeds 0.7 — alive with probability 0.3 for a uniform draw on [0,1). -/
theorem seeding_mirrors_snapshots_and_is_boolean (r : Nat → ℚ) (i : Nat) :
    (seedCellStates r).1 i = (seedCellStates r).2 i ∧
    ((seedCellStates r).1 i = 0 ∨ (seedCellStates r).1 i = 1) ∧
    ((seedCellStates r).1 i = 1 ↔ 7/10 < r i) := by
  refine ⟨rfl, ?_, ?_⟩
  · by_cases hc : (7:ℚ)/10 < r i
    · right
      simp [seedCellStates, hc]
    · left
      simp [seedCellStates, hc]
  · by_cases hc : (7:ℚ)/10 < r i <;> simp [seedCellStates, hc]

/-- Witness for C9 on the all-zero random stream. -/
theorem seeding_mirrors_snapshots_witness :
    (seedCellStates (fun _ => 0)).1 0 = 0 ∨
    (seedCellStates (fun _ => 0)).1 0 = 1 :=
  (seeding_mirrors_snapshots_and_is_boolean (fun _ => 0) 0).2.1

/-- C10: the dispatch launches 16·W·H invocations (x < 16·128 from 128
workgroups of size 16, y < 128), yet the written grid is well-defined: every
flat index below 128·128 is written by at least one invocation, and any two
invocations whose coordinates reduce to the same cell write the same value,
because every read and the write index depend on the coordinates only
modulo the grid size (which divides 2^32). -/
theorem dispatch_over_invocations_consistent (g : Nat → Nat) (i : Nat)
    (hi : i < GRID_SIZE * GRID_SIZE) :
    (∃ x y, x < 16 * GRID_SIZE ∧ y < GRID_SIZE ∧ writeIndex x y = i) ∧
    (∀ x y x' y', x < 16 * GRID_SIZE → y < GRID_SIZE →
      x' < 16 * GRID_SIZE → y' < GRID_SIZE →
      writeIndex x y = writeIndex x' y' → stepCell g x y = stepCell g x' y') := by
  constructor
  · refine ⟨i % GRID_SIZE, i / GRID_SIZE, ?_, ?_, ?_⟩
    · simp only [GRID_SIZE] at *
      omega
    · simp only [GRID_SIZE] at *
      omega
    · simp only [writeIndex, cellIndex, GRID_SIZE] at *
      omega
  · intro x y x' y' hx hy hx' hy' hw
    simp only [writeIndex, cellIndex, GRID_SIZE] at hw hx hy hx' hy'
    have hxx : x % 128 = x' % 128 := by omega
    have hyy : y = y' := by omega
    subst hyy
    exact stepCell_mod_congr g x x' y (by simpa [GRID_SIZE] using hxx)

/-- Witness for C10 at flat index 0 on the all-dead grid. -/
theorem dispatch_over_invocations_consistent_witness :
    (∃ x y, x < 16 * GRID_SIZE ∧ y < GRID_SIZE ∧ writeIndex x y = 0) ∧
    (∀ x y x' y', x < 16 * GRID_SIZE → y < GRID_SIZE →
      x' < 16 * GRID_SIZE → y' < GRID_SIZE →
      writeIndex x y = writeIndex x' y' →
      stepCell (fun _ => 0) x y = stepCell (fun _ => 0) x' y') :=
  dispatch_over_invocations_consistent (fun _ => 0) 0 (by decide)

end WebgpuGo
